import Mathlib

/-!
Contact Integrity System — interceptor core, shallow embedding.

This file embeds the interceptor subsystem of the QwickServices Contact
Integrity System: the Stage-1 pattern scorer (`interceptor.ts`), the
configuration loader (`config.ts`), the circuit breaker
(`circuit-breaker.ts`) and the intercept path of the request dispatcher
(`index.ts`), and proves the spec-level properties about them.

Modelling conventions:
* JS numbers are embedded as `ℚ` (scores, weights) and `ℤ`/`ℕ`
  (parsed integers, counters, millisecond timestamps).  All numeric
  comparisons performed by the code are exact at these values.
* The regex scanner `scanPatterns` is not re-implemented; the scorer is
  parametrised by a function `scan : String → List PatternMatch`
  standing for it, so every theorem quantifies over the scanner's
  possible outputs.  The only structural fact about the real scanner
  that some theorems assume is `scan "" = []` (no regex of the taxonomy
  can match the empty string).  The source's local variable named after
  the match list is rendered `ms` here (its name is reserved in Lean).
* Effects that do not influence the returned values (logging,
  `Date.now()` for `processing_ms`) are dropped.
-/

/-- The five pattern categories of the Stage-1 taxonomy
(`PATTERNS` in interceptor.ts). -/
inductive PatternType
  | phone
  | email
  | url
  | social
  | obfuscation
deriving DecidableEq, Repr

/-- `PATTERN_WEIGHTS` from interceptor.ts: how much each pattern type
contributes to the risk score. -/
def PATTERN_WEIGHTS : PatternType → ℚ
  | .phone => 0.85
  | .email => 0.80
  | .url => 0.50
  | .social => 0.40
  | .obfuscation => 0.15

/-- `PatternMatch` from interceptor.ts: one record per detected
category, with the number of distinct (set-deduplicated) hits and up
to three sample substrings. -/
structure PatternMatch where
  type : PatternType
  count : ℕ
  samples : List String
deriving DecidableEq, Repr

/-- `Math.max` on two numbers (spelled out so that it evaluates inside
the kernel; `Max.max` on `ℚ` goes through a lattice instance that does
not reduce). -/
def jsMax (a b : ℚ) : ℚ := if a ≤ b then b else a

/-- `Math.min` on two numbers. -/
def jsMin (a b : ℚ) : ℚ := if a ≤ b then a else b

/-- `calculateRiskScore` from interceptor.ts.  The `|| 0.1` fallback of
the source on an unknown pattern type is unreachable here because
`PatternType` is the closed enumeration of the five keys of
`PATTERN_WEIGHTS`. -/
def calculateRiskScore (ms : List PatternMatch) : ℚ :=
  if ms = [] then 0.0
  else
    let maxWeight :=
      ms.foldl (fun acc m => jsMax acc (PATTERN_WEIGHTS m.type)) 0.0
    let totalContribution :=
      ms.foldl
        (fun acc m => acc + PATTERN_WEIGHTS m.type * jsMin (m.count : ℚ) 3 / 3) 0.0
    let multiTypeBoost : ℚ :=
      if ms.length > 1 then 0.10 * ((ms.length : ℚ) - 1) else 0
    let score := jsMax (maxWeight * 0.85) (totalContribution * 0.7) + multiTypeBoost
    jsMin score 1.0

/-- The per-category label emitted by `generateLabels` in
interceptor.ts (the `switch` body). -/
def labelOf : PatternType → String
  | .phone => "contact_info_phone"
  | .email => "contact_info_email"
  | .url => "external_link"
  | .social => "social_platform_mention"
  | .obfuscation => "obfuscation_detected"

/-- `generateLabels` from interceptor.ts: one label per match record,
in pipeline order. -/
def generateLabels (ms : List PatternMatch) : List String :=
  ms.map (fun m => labelOf m.type)

/-- `generateNudgeMessage` from interceptor.ts.  Note the hard-coded
medium band `[0.4, 0.65)`: outside it the function returns
`undefined` (here `none`). -/
def generateNudgeMessage (riskScore : ℚ) (ms : List PatternMatch) :
    Option String :=
  if riskScore < 0.4 ∨ riskScore ≥ 0.65 then none
  else
    let hasPhone := ms.any (fun m => m.type = .phone)
    let hasEmail := ms.any (fun m => m.type = .email)
    let hasSocial := ms.any (fun m => m.type = .social)
    if hasPhone ∨ hasEmail then
      some "Sharing personal contact information may violate platform policies and put you at risk. Please keep conversations on the platform."
    else if hasSocial then
      some "We noticed you\x27re trying to move the conversation off-platform. For your safety, please continue chatting here."
    else
      some "This message may contain content that violates our community guidelines. Please review before sending."

/-- `generateBlockReason` from interceptor.ts. -/
def generateBlockReason (ms : List PatternMatch) : String :=
  let types := ms.map (fun m => m.type)
  let reasons : List String :=
    (if types.contains .phone then ["phone number"] else []) ++
    (if types.contains .email then ["email address"] else []) ++
    (if types.contains .url then ["external link"] else []) ++
    (if types.contains .social then ["social media reference"] else [])
  if reasons = [] then "Message blocked due to potential policy violation"
  else
    "Message blocked: detected " ++ String.intercalate ", " reasons ++
      ". Keep conversations on the platform for your safety."

/-- `InterceptorConfig` from types.ts. -/
structure InterceptorConfig where
  sync_threshold : ℚ
  redis_host : String
  redis_port : ℤ
  detection_host : String
  detection_port : ℤ
  circuit_breaker_threshold : ℤ
  circuit_breaker_reset_ms : ℤ
  max_message_length : ℤ
deriving DecidableEq, Repr

/-- A JavaScript number as `parseFloat`/`parseInt` produce it from an
environment string: an actual number, or `NaN` on a non-numeric
string.  (`parseFloat("Infinity")` is the one further possibility; an
infinity fires the range checks below exactly like any out-of-range
number and is not modelled separately.) -/
inductive JSNum
  | nan
  | num (q : ℚ)
deriving DecidableEq, Repr

/-- JavaScript `<` on parsed numbers: false whenever either side is
NaN. -/
def JSNum.lt : JSNum → JSNum → Prop
  | .num a, .num b => a < b
  | .num _, .nan => False
  | .nan, .num _ => False
  | .nan, .nan => False

/-- JavaScript `>` on parsed numbers: false whenever either side is
NaN. -/
def JSNum.gt : JSNum → JSNum → Prop
  | .num a, .num b => b < a
  | .num _, .nan => False
  | .nan, .num _ => False
  | .nan, .nan => False

instance : ∀ (a b : JSNum), Decidable (JSNum.lt a b) := fun a b =>
  match a, b with
  | .num a, .num b => inferInstanceAs (Decidable (a < b))
  | .num _, .nan => inferInstanceAs (Decidable False)
  | .nan, .num _ => inferInstanceAs (Decidable False)
  | .nan, .nan => inferInstanceAs (Decidable False)

instance : ∀ (a b : JSNum), Decidable (JSNum.gt a b) := fun a b =>
  match a, b with
  | .num a, .num b => inferInstanceAs (Decidable (b < a))
  | .num _, .nan => inferInstanceAs (Decidable False)
  | .nan, .num _ => inferInstanceAs (Decidable False)
  | .nan, .nan => inferInstanceAs (Decidable False)

/-- How a JS template literal renders a parsed number (`NaN`
included). -/
def JSNum.render : JSNum → String
  | .nan => "NaN"
  | .num q => toString q

/-- The environment assignment seen by `loadConfig` in config.ts,
modelled post-parse: each numeric field is the `JSNum` that
`parseFloat`/`parseInt` produced for the corresponding variable —
`NaN` when the string was not numeric — and `none` means the variable
is unset, in which case the source supplies the (numeric) default
string. -/
structure EnvConfig where
  SYNC_THRESHOLD : Option JSNum := none
  REDIS_HOST : Option String := none
  REDIS_PORT : Option JSNum := none
  DETECTION_HOST : Option String := none
  DETECTION_PORT : Option JSNum := none
  CIRCUIT_BREAKER_THRESHOLD : Option JSNum := none
  CIRCUIT_BREAKER_RESET_MS : Option JSNum := none
  MAX_MESSAGE_LENGTH : Option JSNum := none
deriving DecidableEq, Repr

/-- The `InterceptorConfig` record as `loadConfig` actually holds it:
every numeric field is a JS number, so a `NaN` produced by parsing can
flow through the validation chain. -/
structure RawInterceptorConfig where
  sync_threshold : JSNum
  redis_host : String
  redis_port : JSNum
  detection_host : String
  detection_port : JSNum
  circuit_breaker_threshold : JSNum
  circuit_breaker_reset_ms : JSNum
  max_message_length : JSNum
deriving DecidableEq, Repr

/-- The JS-level image of a numeric configuration (each field an
actual number; the integer fields cast to their JS value). -/
def jsConfigOf (c : InterceptorConfig) : RawInterceptorConfig where
  sync_threshold := .num c.sync_threshold
  redis_host := c.redis_host
  redis_port := .num (c.redis_port : ℚ)
  detection_host := c.detection_host
  detection_port := .num (c.detection_port : ℚ)
  circuit_breaker_threshold := .num (c.circuit_breaker_threshold : ℚ)
  circuit_breaker_reset_ms := .num (c.circuit_breaker_reset_ms : ℚ)
  max_message_length := .num (c.max_message_length : ℚ)

/-- The record construction at the top of `loadConfig` in config.ts
(defaults applied, before validation; the default strings parse to the
numbers shown). -/
def parseConfig (env : EnvConfig) : RawInterceptorConfig where
  sync_threshold := env.SYNC_THRESHOLD.getD (.num 0.65)
  redis_host := env.REDIS_HOST.getD "localhost"
  redis_port := env.REDIS_PORT.getD (.num 6379)
  detection_host := env.DETECTION_HOST.getD "localhost"
  detection_port := env.DETECTION_PORT.getD (.num 8000)
  circuit_breaker_threshold := env.CIRCUIT_BREAKER_THRESHOLD.getD (.num 5)
  circuit_breaker_reset_ms := env.CIRCUIT_BREAKER_RESET_MS.getD (.num 30000)
  max_message_length := env.MAX_MESSAGE_LENGTH.getD (.num 10000)

/-- `loadConfig` from config.ts: build the record, then run the
validation chain with JS comparison semantics, throwing (here
`Except.error`) on the first check that fires.  Because every
comparison with NaN is false, a NaN-valued tunable fires no check. -/
def loadConfig (env : EnvConfig) : Except String RawInterceptorConfig :=
  let config := parseConfig env
  if JSNum.lt config.sync_threshold (.num 0) ∨
      JSNum.gt config.sync_threshold (.num 1) then
    Except.error ("Invalid sync_threshold: " ++ config.sync_threshold.render ++
      ". Must be between 0 and 1.")
  else if JSNum.lt config.redis_port (.num 1) ∨
      JSNum.gt config.redis_port (.num 65535) then
    Except.error ("Invalid redis_port: " ++ config.redis_port.render)
  else if JSNum.lt config.detection_port (.num 1) ∨
      JSNum.gt config.detection_port (.num 65535) then
    Except.error ("Invalid detection_port: " ++ config.detection_port.render)
  else if JSNum.lt config.circuit_breaker_threshold (.num 1) then
    Except.error ("Invalid circuit_breaker_threshold: " ++
      config.circuit_breaker_threshold.render)
  else if JSNum.lt config.circuit_breaker_reset_ms (.num 1000) then
    Except.error ("Invalid circuit_breaker_reset_ms: " ++
      config.circuit_breaker_reset_ms.render ++ ". Must be at least 1000ms.")
  else if JSNum.lt config.max_message_length (.num 1) then
    Except.error ("Invalid max_message_length: " ++
      config.max_message_length.render)
  else
    Except.ok config

/-- `ChatMessage` from types.ts. -/
structure ChatMessage where
  message_id : String
  thread_id : String
  user_id : String
  content : String
  timestamp : String
  gps_lat : Option ℚ := none
  gps_lon : Option ℚ := none
deriving DecidableEq, Repr

/-- `InterceptResult` from types.ts.  The optional fields model the
`undefined`-able properties. -/
structure InterceptResult where
  allowed : Bool
  action : String
  risk_score : ℚ
  labels : List String
  nudge_message : Option String := none
  block_reason : Option String := none
deriving DecidableEq, Repr

/-- `interceptMessage` from interceptor.ts, parametrised by the regex
scanner (`scan` stands for `scanPatterns`).  The `!message.content`
guard of the source is the JS falsiness test on a string, i.e. the
empty-string test here (the type system rules out `null`/`undefined`
content, which the same guard also catches).  In the low-risk branch
the source's `labels.length > 0 ? labels : []` is just `labels`. -/
def interceptMessage (cfg : InterceptorConfig)
    (scan : String → List PatternMatch) (message : ChatMessage) :
    InterceptResult :=
  if message.content = "" then
    { allowed := true, action := "allow", risk_score := 0.0, labels := [] }
  else if (message.content.length : ℤ) > cfg.max_message_length then
    { allowed := false
      action := "hard_block"
      risk_score := 1.0
      labels := ["message_too_long"]
      block_reason := some ("Message exceeds maximum length of " ++
        toString cfg.max_message_length ++ " characters") }
  else
    let ms := scan message.content
    let riskScore := calculateRiskScore ms
    let labels := generateLabels ms
    if riskScore ≥ cfg.sync_threshold then
      { allowed := false
        action := "hard_block"
        risk_score := riskScore
        labels := labels
        block_reason := some (generateBlockReason ms) }
    else if riskScore ≥ 0.4 then
      { allowed := true
        action := "nudge"
        risk_score := riskScore
        labels := labels
        nudge_message := generateNudgeMessage riskScore ms }
    else
      { allowed := true, action := "allow", risk_score := riskScore
        labels := labels }

/-- `CircuitState` from circuit-breaker.ts. -/
inductive CircuitState
  | CLOSED
  | OPEN
  | HALF_OPEN
deriving DecidableEq, Repr

/-- `Required<CircuitBreakerConfig>` from circuit-breaker.ts: the
configuration after the constructor has applied
`halfOpenMaxAttempts: config.halfOpenMaxAttempts || 1`. -/
structure CircuitBreakerConfig where
  threshold : ℕ
  resetTimeout : ℕ
  halfOpenMaxAttempts : ℕ
deriving DecidableEq, Repr

/-- The `halfOpenMaxAttempts || 1` defaulting in the constructor of
`CircuitBreaker` (JS `||`: `0` and a missing value both fall back
to `1`). -/
def defaultHalfOpenMaxAttempts (v : Option ℕ) : ℕ :=
  match v with
  | some n => if n = 0 then 1 else n
  | none => 1

/-- The mutable fields of the `CircuitBreaker` class from
circuit-breaker.ts, together with its (immutable) configuration.
Times are `Date.now()` millisecond timestamps, modelled as `ℕ`. -/
structure CircuitBreaker where
  config : CircuitBreakerConfig
  state : CircuitState
  failureCount : ℕ
  successCount : ℕ
  lastFailureTime : ℕ
deriving DecidableEq, Repr

/-- The field initialisers of the `CircuitBreaker` class (state
`CLOSED`, all counters zero). -/
def mkCircuitBreaker (config : CircuitBreakerConfig) : CircuitBreaker where
  config := config
  state := .CLOSED
  failureCount := 0
  successCount := 0
  lastFailureTime := 0

/-- `CircuitBreaker.onSuccess` from circuit-breaker.ts. -/
def CircuitBreaker.onSuccess (cb : CircuitBreaker) : CircuitBreaker :=
  match cb.state with
  | .HALF_OPEN =>
    let s := cb.successCount + 1
    if s ≥ cb.config.halfOpenMaxAttempts then
      { cb with state := .CLOSED, failureCount := 0, successCount := 0 }
    else
      { cb with successCount := s }
  | .CLOSED =>
    if cb.failureCount > 0 then { cb with failureCount := 0 } else cb
  | .OPEN => cb

/-- `CircuitBreaker.onFailure` from circuit-breaker.ts (`now` is the
`Date.now()` recorded as `lastFailureTime`). -/
def CircuitBreaker.onFailure (cb : CircuitBreaker) (now : ℕ) : CircuitBreaker :=
  let cb := { cb with
    failureCount := cb.failureCount + 1
    lastFailureTime := now }
  match cb.state with
  | .HALF_OPEN => { cb with state := .OPEN, successCount := 0 }
  | .CLOSED =>
    if cb.failureCount ≥ cb.config.threshold then { cb with state := .OPEN }
    else cb
  | .OPEN => cb

/-- The outcome of one `execute` call: the protected operation's value,
the `undefined` sentinel (open circuit or exhausted half-open
attempts), or a re-thrown exception. -/
inductive ExecOutcome (T : Type)
  | value (t : T)
  | sentinel
  | thrown
deriving DecidableEq, Repr

/-- The part of `CircuitBreaker.execute` after the OPEN fast path: the
half-open attempt limit, then the `try`/`catch` around the protected
operation.  `op` is the outcome the operation would have (`Except.ok`
a value, `Except.error` a thrown exception). -/
def CircuitBreaker.executeInner {T : Type} (cb : CircuitBreaker) (now : ℕ)
    (op : Except Unit T) : ExecOutcome T × CircuitBreaker :=
  if cb.state = .HALF_OPEN ∧ cb.successCount ≥ cb.config.halfOpenMaxAttempts then
    (.sentinel, cb)
  else
    match op with
    | .ok t => (.value t, cb.onSuccess)
    | .error _ => (.thrown, cb.onFailure now)

/-- `CircuitBreaker.execute` from circuit-breaker.ts.  The source's
`Date.now() - lastFailureTime >= resetTimeout` test is rendered as
`lastFailureTime + resetTimeout ≤ now`, which agrees with the JS
integer comparison for every value of `now`. -/
def CircuitBreaker.execute {T : Type} (cb : CircuitBreaker) (now : ℕ)
    (op : Except Unit T) : ExecOutcome T × CircuitBreaker :=
  if cb.state = .OPEN then
    if cb.lastFailureTime + cb.config.resetTimeout ≤ now then
      CircuitBreaker.executeInner
        { cb with state := .HALF_OPEN, successCount := 0 } now op
    else
      (.sentinel, cb)
  else
    CircuitBreaker.executeInner cb now op

/-- `CircuitBreaker.reset` from circuit-breaker.ts. -/
def CircuitBreaker.reset (cb : CircuitBreaker) : CircuitBreaker :=
  { cb with
    state := .CLOSED
    failureCount := 0
    successCount := 0
    lastFailureTime := 0 }

/-- `n` consecutive `execute` calls whose protected operation fails
(at the same timestamp `now`). -/
def iterExecFail (now : ℕ) : ℕ → CircuitBreaker → CircuitBreaker
  | 0, cb => cb
  | n + 1, cb =>
    ((iterExecFail now n cb).execute now (Except.error () : Except Unit Unit)).2

/-- `n` consecutive `execute` calls whose protected operation succeeds
(at the same timestamp `now`). -/
def iterExecOk (now : ℕ) : ℕ → CircuitBreaker → CircuitBreaker
  | 0, cb => cb
  | n + 1, cb =>
    ((iterExecOk now n cb).execute now (Except.ok () : Except Unit Unit)).2

/-- `InterceptorRequest` from index.ts (a parsed `intercept` frame). -/
structure InterceptorRequest where
  type : String
  message : ChatMessage
  request_id : Option String := none
deriving DecidableEq, Repr

/-- `ErrorResponse` from index.ts. -/
structure ErrorResponse where
  request_id : Option String := none
  error : String
  message : String
deriving DecidableEq, Repr

/-- What `handleMessage` in index.ts sends back for one parsed frame:
either an `InterceptorResponse` carrying an `InterceptResult`, or an
`ErrorResponse` (via `sendError`). -/
inductive DispatcherReply
  | ok (result : InterceptResult)
  | err (e : ErrorResponse)
deriving DecidableEq, Repr

/-- The `InterceptResult` the dispatcher synthesizes when the breaker
returns the sentinel (index.ts, `breakerResult === undefined`). -/
def breakerOpenResult : InterceptResult :=
  { allowed := true, action := "allow", risk_score := 0.0
    labels := ["circuit_breaker_open"] }

/-- The `InterceptResult` the dispatcher synthesizes when the
breaker-wrapped call throws (index.ts, inner `catch`). -/
def interceptorErrorResult : InterceptResult :=
  { allowed := true, action := "allow", risk_score := 0.0
    labels := ["interceptor_error"] }

/-- The validate-and-score core of `handleMessage` from index.ts, for
an already-parsed request.  `scorer` stands for the thunk
`() => interceptMessage(request.message)` handed to the breaker; in
normal operation it is `fun m => Except.ok (interceptMessage cfg scan m)`,
and an `Except.error` models the thunk throwing.  The
`!request.message.content` guard is the JS falsiness test, i.e. the
empty-string test (`null`/`undefined` are excluded by the types).
Request-id minting, the async emit and `processing_ms` do not affect
the reply's `result`/`error` fields and are not modelled. -/
def handleMessage (scorer : ChatMessage → Except Unit InterceptResult)
    (cb : CircuitBreaker) (now : ℕ) (req : InterceptorRequest) :
    DispatcherReply × CircuitBreaker :=
  if req.type ≠ "intercept" then
    (.err { request_id := req.request_id, error := "processing_error"
            message := "Invalid request type" }, cb)
  else if req.message.content = "" then
    (.err { request_id := req.request_id, error := "processing_error"
            message := "Missing message content" }, cb)
  else
    match cb.execute now (scorer req.message) with
    | (.value v, cb2) => (.ok v, cb2)
    | (.sentinel, cb2) => (.ok breakerOpenResult, cb2)
    | (.thrown, cb2) => (.ok interceptorErrorResult, cb2)

/-- The per-category weights exactly as the spec lists them
(§4.1 Weights: phone 0.85, email 0.80, url 0.50, social 0.40,
obfuscation 0.15).  Stated separately from `PATTERN_WEIGHTS` so that
the spec's scoring formula is transcribed from the spec text alone. -/
def SPEC_WEIGHTS : PatternType → ℚ
  | .phone => 0.85
  | .email => 0.80
  | .url => 0.50
  | .social => 0.40
  | .obfuscation => 0.15

/-- The scoring formula transcribed from the spec (§4.1 Scoring): zero
on no matches, otherwise
`min (max (maxWeight*0.85) (totalContribution*0.7) + multiTypeBoost) 1`
with `totalContribution` a sum over the matched categories,
`multiTypeBoost = 0.10*(n-1)` for `n > 1` matched categories. -/
def specRiskScore (ms : List PatternMatch) : ℚ :=
  if ms.length = 0 then 0.0
  else
    let maxWeight := (ms.map (fun m => SPEC_WEIGHTS m.type)).foldr max 0
    let totalContribution :=
      (ms.map (fun m => SPEC_WEIGHTS m.type * min (m.count : ℚ) 3 / 3)).sum
    let multiTypeBoost : ℚ :=
      if 1 < ms.length then 0.10 * ((ms.length : ℚ) - 1) else 0
    min (max (maxWeight * 0.85) (totalContribution * 0.7) + multiTypeBoost) 1.0

/-- The environment with every variable unset (all defaults apply). -/
def defaultEnv : EnvConfig := {}

/-- The default configuration: the numeric values the loader produces
when every variable is unset. -/
def defaultConfig : InterceptorConfig where
  sync_threshold := 0.65
  redis_host := "localhost"
  redis_port := 6379
  detection_host := "localhost"
  detection_port := 8000
  circuit_breaker_threshold := 5
  circuit_breaker_reset_ms := 30000
  max_message_length := 10000

/-- An environment that only sets `SYNC_THRESHOLD=0.7` (a numeric,
valid value: `0.7 ∈ [0,1]`). -/
def env70 : EnvConfig := { SYNC_THRESHOLD := some (.num 0.7) }

/-- The numeric configuration the loader accepts from `env70`. -/
def cfg70 : InterceptorConfig := { defaultConfig with sync_threshold := 0.7 }

/-- The numeric configuration with `MAX_MESSAGE_LENGTH=5` and defaults
elsewhere. -/
def cfgMax5 : InterceptorConfig := { defaultConfig with max_message_length := 5 }

/-- A scanner behaviour exhibited by `scanPatterns` on content whose
only detected pattern is one distinct standard email (for example
`"Email me at john.doe@example.com"`): a single `email` record with
`count = 1`. -/
def scanEmailOnly : String → List PatternMatch := fun content =>
  if content = "" then [] else [⟨.email, 1, ["john.doe@example.com"]⟩]

/-- A scanner behaviour exhibited by `scanPatterns` on content whose
only detected pattern is one distinct US-format phone number. -/
def scanPhoneOnly : String → List PatternMatch := fun content =>
  if content = "" then [] else [⟨.phone, 1, ["(555) 123-4567"]⟩]

/-- A scanner behaviour exhibited by `scanPatterns` on content whose
only detected pattern is one distinct social keyword. -/
def scanSocialOnly : String → List PatternMatch := fun content =>
  if content = "" then [] else [⟨.social, 1, ["whatsapp"]⟩]

/-- A scanner behaviour exhibited by `scanPatterns` on content whose
only detected pattern is one distinct URL. -/
def scanUrlOnly : String → List PatternMatch := fun content =>
  if content = "" then [] else [⟨.url, 1, ["https://example.com/profile"]⟩]

/-- A `ChatMessage` with fixed identifiers and the given content. -/
def msgFixture (content : String) : ChatMessage where
  message_id := "msg-001"
  thread_id := "thread-001"
  user_id := "user-001"
  content := content
  timestamp := "2025-01-01T12:00:00Z"

/-- The record invariants of `InterceptResult` as the spec states them
(§3): `allowed = (action ≠ hard_block)`, `nudge_message` present iff
the action is `nudge`, `block_reason` present iff the action is
`hard_block`. -/
def resultInvariants (r : InterceptResult) : Prop :=
  (r.allowed = true ↔ r.action ≠ "hard_block") ∧
  (r.nudge_message.isSome = true ↔ r.action = "nudge") ∧
  (r.block_reason.isSome = true ↔ r.action = "hard_block")

instance (r : InterceptResult) : Decidable (resultInvariants r) := by
  unfold resultInvariants; infer_instance

/-- A breaker that is OPEN with the reset timeout not yet elapsed at
the timestamps used below. -/
def cbOpenFixture : CircuitBreaker where
  config := ⟨5, 30000, 3⟩
  state := .OPEN
  failureCount := 5
  successCount := 0
  lastFailureTime := 1000

/-- A breaker that is OPEN with the reset timeout already elapsed at
timestamp 1000. -/
def cbOpenElapsed : CircuitBreaker where
  config := ⟨5, 1000, 3⟩
  state := .OPEN
  failureCount := 5
  successCount := 0
  lastFailureTime := 0

theorem jsMax_eq_max (a b : ℚ) : jsMax a b = max a b := by
  unfold jsMax
  split_ifs with h
  · exact (max_eq_right h).symm
  · exact (max_eq_left (le_of_not_le h)).symm

theorem jsMin_eq_min (a b : ℚ) : jsMin a b = min a b := by
  unfold jsMin
  split_ifs with h
  · exact (min_eq_left h).symm
  · exact (min_eq_right (le_of_not_le h)).symm

theorem PATTERN_WEIGHTS_eq_SPEC_WEIGHTS (t : PatternType) :
    PATTERN_WEIGHTS t = SPEC_WEIGHTS t := by
  cases t <;> rfl

theorem foldr_max_max (L : List ℚ) (a b : ℚ) :
    L.foldr max (max a b) = max b (L.foldr max a) := by
  induction L with
  | nil => exact max_comm a b
  | cons c L ih =>
    simp only [List.foldr_cons, ih]
    exact max_left_comm c b (L.foldr max a)

theorem foldl_max_eq_foldr {α : Type} (f : α → ℚ) :
    ∀ (l : List α) (a : ℚ),
      l.foldl (fun acc m => max acc (f m)) a = (l.map f).foldr max a := by
  intro l
  induction l with
  | nil => intro a; rfl
  | cons x l ih =>
    intro a
    simp only [List.foldl_cons, List.map_cons, List.foldr_cons]
    rw [ih (max a (f x)), foldr_max_max]

theorem foldl_add_eq_sum {α : Type} (f : α → ℚ) :
    ∀ (l : List α) (a : ℚ),
      l.foldl (fun acc m => acc + f m) a = a + (l.map f).sum := by
  intro l
  induction l with
  | nil => intro a; simp
  | cons x l ih =>
    intro a
    simp only [List.foldl_cons, List.map_cons, List.sum_cons]
    rw [ih (a + f x), add_assoc]

/-- The code's score computation coincides with the spec's formula on
every list of pattern matches. -/
theorem calculateRiskScore_eq_spec (ms : List PatternMatch) :
    calculateRiskScore ms = specRiskScore ms := by
  unfold calculateRiskScore specRiskScore
  by_cases h : ms = []
  · simp [h]
  · have hlen : ¬ ms.length = 0 := fun hl => h (List.length_eq_zero.mp hl)
    simp only [if_neg h, if_neg hlen]
    have hw : (fun m : PatternMatch => PATTERN_WEIGHTS m.type)
        = fun m : PatternMatch => SPEC_WEIGHTS m.type := by
      funext m; exact PATTERN_WEIGHTS_eq_SPEC_WEIGHTS m.type
    simp only [jsMax_eq_max, jsMin_eq_min, PATTERN_WEIGHTS_eq_SPEC_WEIGHTS]
    rw [foldl_max_eq_foldr (fun m : PatternMatch => SPEC_WEIGHTS m.type) ms 0.0,
      foldl_add_eq_sum
        (fun m : PatternMatch => SPEC_WEIGHTS m.type * min (m.count : ℚ) 3 / 3)
        ms 0.0]
    norm_num

theorem generateNudgeMessage_isSome (s : ℚ) (ms : List PatternMatch)
    (h1 : 0.4 ≤ s) (h2 : s < 0.65) :
    (generateNudgeMessage s ms).isSome = true := by
  unfold generateNudgeMessage
  rw [if_neg]
  · dsimp only
    split_ifs <;> rfl
  · push_neg
    exact ⟨h1, h2⟩

/-- On non-empty content within the length limit, the returned
`risk_score` is `calculateRiskScore` of the scanner's matches,
whichever decision branch is taken. -/
theorem interceptMessage_risk_score (cfg : InterceptorConfig)
    (scan : String → List PatternMatch) (msg : ChatMessage)
    (hc : msg.content ≠ "")
    (hlen : ¬ ((msg.content.length : ℤ) > cfg.max_message_length)) :
    (interceptMessage cfg scan msg).risk_score
      = calculateRiskScore (scan msg.content) := by
  unfold interceptMessage
  rw [if_neg hc, if_neg hlen]
  dsimp only
  split_ifs <;> rfl

theorem interceptMessage_empty (cfg : InterceptorConfig)
    (scan : String → List PatternMatch) (msg : ChatMessage)
    (hc : msg.content = "") :
    interceptMessage cfg scan msg
      = { allowed := true, action := "allow", risk_score := 0.0, labels := [] } := by
  unfold interceptMessage
  rw [if_pos hc]

theorem interceptMessage_too_long (cfg : InterceptorConfig)
    (scan : String → List PatternMatch) (msg : ChatMessage)
    (hc : msg.content ≠ "")
    (hlen : (msg.content.length : ℤ) > cfg.max_message_length) :
    interceptMessage cfg scan msg
      = { allowed := false, action := "hard_block", risk_score := 1.0
          labels := ["message_too_long"]
          block_reason := some ("Message exceeds maximum length of " ++
            toString cfg.max_message_length ++ " characters") } := by
  unfold interceptMessage
  rw [if_neg hc, if_pos hlen]

theorem interceptMessage_block (cfg : InterceptorConfig)
    (scan : String → List PatternMatch) (msg : ChatMessage)
    (hc : msg.content ≠ "")
    (hlen : ¬ ((msg.content.length : ℤ) > cfg.max_message_length))
    (hs : calculateRiskScore (scan msg.content) ≥ cfg.sync_threshold) :
    interceptMessage cfg scan msg
      = { allowed := false, action := "hard_block"
          risk_score := calculateRiskScore (scan msg.content)
          labels := generateLabels (scan msg.content)
          block_reason := some (generateBlockReason (scan msg.content)) } := by
  unfold interceptMessage
  rw [if_neg hc, if_neg hlen]
  dsimp only
  rw [if_pos hs]

theorem interceptMessage_nudge (cfg : InterceptorConfig)
    (scan : String → List PatternMatch) (msg : ChatMessage)
    (hc : msg.content ≠ "")
    (hlen : ¬ ((msg.content.length : ℤ) > cfg.max_message_length))
    (hs : ¬ (calculateRiskScore (scan msg.content) ≥ cfg.sync_threshold))
    (hm : calculateRiskScore (scan msg.content) ≥ 0.4) :
    interceptMessage cfg scan msg
      = { allowed := true, action := "nudge"
          risk_score := calculateRiskScore (scan msg.content)
          labels := generateLabels (scan msg.content)
          nudge_message := generateNudgeMessage
            (calculateRiskScore (scan msg.content)) (scan msg.content) } := by
  unfold interceptMessage
  rw [if_neg hc, if_neg hlen]
  dsimp only
  rw [if_neg hs, if_pos hm]

theorem interceptMessage_allow (cfg : InterceptorConfig)
    (scan : String → List PatternMatch) (msg : ChatMessage)
    (hc : msg.content ≠ "")
    (hlen : ¬ ((msg.content.length : ℤ) > cfg.max_message_length))
    (hs : ¬ (calculateRiskScore (scan msg.content) ≥ cfg.sync_threshold))
    (hm : ¬ (calculateRiskScore (scan msg.content) ≥ 0.4)) :
    interceptMessage cfg scan msg
      = { allowed := true, action := "allow"
          risk_score := calculateRiskScore (scan msg.content)
          labels := generateLabels (scan msg.content) } := by
  unfold interceptMessage
  rw [if_neg hc, if_neg hlen]
  dsimp only
  rw [if_neg hs, if_neg hm]

theorem foldl_max_ge_init {α : Type} (f : α → ℚ) :
    ∀ (l : List α) (a : ℚ), a ≤ l.foldl (fun acc m => max acc (f m)) a := by
  intro l
  induction l with
  | nil => intro a; exact le_refl a
  | cons x l ih =>
    intro a
    exact le_trans (le_max_left a (f x)) (ih (max a (f x)))

theorem calculateRiskScore_nonneg (ms : List PatternMatch) :
    0 ≤ calculateRiskScore ms := by
  unfold calculateRiskScore
  by_cases h : ms = []
  · rw [if_pos h]; norm_num
  · rw [if_neg h]
    dsimp only
    simp only [jsMax_eq_max, jsMin_eq_min]
    refine le_min ?_ (by norm_num)
    have hmw : (0 : ℚ)
        ≤ ms.foldl (fun acc m => max acc (PATTERN_WEIGHTS m.type)) 0.0 := by
      have := foldl_max_ge_init (fun m : PatternMatch => PATTERN_WEIGHTS m.type)
        ms 0.0
      calc (0 : ℚ) ≤ 0.0 := by norm_num
        _ ≤ _ := this
    have hboost : (0 : ℚ)
        ≤ if ms.length > 1 then 0.10 * ((ms.length : ℚ) - 1) else 0 := by
      split_ifs with hn
      · have h1 : (1 : ℚ) ≤ (ms.length : ℚ) := by
          exact_mod_cast Nat.one_le_iff_ne_zero.mpr (by omega)
        nlinarith
      · exact le_refl 0
    refine add_nonneg (le_trans ?_ (le_max_left _ _)) hboost
    nlinarith

theorem calculateRiskScore_le_one (ms : List PatternMatch) :
    calculateRiskScore ms ≤ 1 := by
  unfold calculateRiskScore
  by_cases h : ms = []
  · rw [if_pos h]; norm_num
  · rw [if_neg h]
    dsimp only
    rw [jsMin_eq_min]
    calc min _ (1.0 : ℚ) ≤ 1.0 := min_le_right _ _
      _ ≤ 1 := by norm_num

/-- C3: for every message content within the length limit (and for
every behaviour of the regex scanner mapping empty content to no
matches, as `scanPatterns` does), the `risk_score` returned by
`interceptMessage` equals the spec's scoring formula — with the spec's
weights — applied to the pattern matches of the content. -/
theorem interceptMessage_risk_eq_spec_formula (cfg : InterceptorConfig)
    (scan : String → List PatternMatch) (msg : ChatMessage)
    (hscan : scan "" = [])
    (hlen : (msg.content.length : ℤ) ≤ cfg.max_message_length) :
    (interceptMessage cfg scan msg).risk_score
      = specRiskScore (scan msg.content) := by
  by_cases hc : msg.content = ""
  · rw [interceptMessage_empty cfg scan msg hc, hc, hscan]
    norm_num [specRiskScore]
  · rw [interceptMessage_risk_score cfg scan msg hc (not_lt.mpr hlen)]
    exact calculateRiskScore_eq_spec (scan msg.content)

/-- Witness for C3 at the default configuration, a single-email
scanner behaviour and a concrete message. -/
theorem interceptMessage_risk_eq_spec_formula_witness :
    (interceptMessage defaultConfig scanEmailOnly
        (msgFixture "Email me at john.doe@example.com")).risk_score
      = specRiskScore (scanEmailOnly "Email me at john.doe@example.com") :=
  interceptMessage_risk_eq_spec_formula defaultConfig scanEmailOnly
    (msgFixture "Email me at john.doe@example.com") (by decide) (by decide)

/-- C1 (amended): on content within the length limit whose scan yields
a single matched category with one distinct match, the risk score of a
clear phone or email exceeds 0.65 and a single url lands in
[0.40, 0.65); but a single social yields exactly 0.34, which is below
the 0.40 nudge band, not inside it. -/
theorem single_category_risk_bands (cfg : InterceptorConfig)
    (scan : String → List PatternMatch) (msg : ChatMessage)
    (samples : List String) (hscan : scan "" = [])
    (hlen : (msg.content.length : ℤ) ≤ cfg.max_message_length) :
    (scan msg.content = [⟨.phone, 1, samples⟩] →
      (interceptMessage cfg scan msg).risk_score > 0.65) ∧
    (scan msg.content = [⟨.email, 1, samples⟩] →
      (interceptMessage cfg scan msg).risk_score > 0.65) ∧
    (scan msg.content = [⟨.url, 1, samples⟩] →
      0.40 ≤ (interceptMessage cfg scan msg).risk_score ∧
        (interceptMessage cfg scan msg).risk_score < 0.65) ∧
    (scan msg.content = [⟨.social, 1, samples⟩] →
      (interceptMessage cfg scan msg).risk_score = 0.34 ∧
        (interceptMessage cfg scan msg).risk_score < 0.40) := by
  have key : ∀ t : PatternType, scan msg.content = [⟨t, 1, samples⟩] →
      (interceptMessage cfg scan msg).risk_score
        = calculateRiskScore [⟨t, 1, samples⟩] := by
    intro t h
    have hc : msg.content ≠ "" := by
      intro he
      rw [he, hscan] at h
      exact List.cons_ne_nil _ _ h.symm
    rw [interceptMessage_risk_score cfg scan msg hc (not_lt.mpr hlen), h]
  refine ⟨fun h => ?_, fun h => ?_, fun h => ?_, fun h => ?_⟩ <;>
    rw [key _ h] <;>
    norm_num [calculateRiskScore, PATTERN_WEIGHTS, jsMax, jsMin]

/-- Witness for C1 (amended) at the default configuration and a
single-phone scanner behaviour. -/
theorem single_category_risk_bands_witness :
    (interceptMessage defaultConfig scanPhoneOnly
        (msgFixture "Call me at (555) 123-4567")).risk_score > 0.65 :=
  (single_category_risk_bands defaultConfig scanPhoneOnly
      (msgFixture "Call me at (555) 123-4567") ["(555) 123-4567"]
      (by decide) (by decide)).1 (by decide)

/-- Counterexample to C1 as stated: content whose scan is a single
social match with one distinct hit (for example
"Add me on WhatsApp") gets risk score 0.34, outside [0.40, 0.65). -/
theorem single_social_band_counterexample :
    (interceptMessage defaultConfig scanSocialOnly
        (msgFixture "Add me on WhatsApp")).risk_score = 0.34 ∧
    ¬ (0.40 ≤ (interceptMessage defaultConfig scanSocialOnly
        (msgFixture "Add me on WhatsApp")).risk_score) := by
  have hc : (msgFixture "Add me on WhatsApp").content ≠ "" := by decide
  have hlen : ¬ (((msgFixture "Add me on WhatsApp").content.length : ℤ)
      > defaultConfig.max_message_length) := by decide
  rw [interceptMessage_risk_score defaultConfig scanSocialOnly _ hc hlen]
  rw [show scanSocialOnly (msgFixture "Add me on WhatsApp").content
      = [⟨.social, 1, ["whatsapp"]⟩] from by decide]
  norm_num [calculateRiskScore, PATTERN_WEIGHTS, jsMax, jsMin]

/-- C6: a message longer than the (validated, hence ≥ 1) configured
maximum is hard-blocked by the length gate, independently of the
scanner: `allowed = false`, `action = hard_block`, `risk_score = 1.0`,
`labels = [message_too_long]`, and the block reason cites the
configured maximum. -/
theorem length_gate_hard_blocks (cfg : InterceptorConfig)
    (scan : String → List PatternMatch) (msg : ChatMessage)
    (hmax : 1 ≤ cfg.max_message_length)
    (hlen : (msg.content.length : ℤ) > cfg.max_message_length) :
    interceptMessage cfg scan msg
      = { allowed := false, action := "hard_block", risk_score := 1.0
          labels := ["message_too_long"]
          block_reason := some ("Message exceeds maximum length of " ++
            toString cfg.max_message_length ++ " characters") } := by
  have hc : msg.content ≠ "" := by
    intro he
    rw [he] at hlen
    simp only [String.length_empty, Nat.cast_zero] at hlen
    omega
  exact interceptMessage_too_long cfg scan msg hc hlen

/-- C2 (amended): for every configuration and every scorer output,
`allowed = (action ≠ hard_block)` and `block_reason` is present iff
the action is `hard_block`; all three invariants hold for the two
dispatcher-synthesized results; and `nudge_message` is present iff
the action is `nudge` whenever the configuration's `sync_threshold`
does not exceed 0.65 (in particular at the default 0.65).  Above 0.65
the `nudge_message`-iff invariant fails, see the counterexample. -/
theorem intercept_result_invariants (cfg : InterceptorConfig)
    (scan : String → List PatternMatch) (msg : ChatMessage) :
    ((interceptMessage cfg scan msg).allowed = true ↔
      (interceptMessage cfg scan msg).action ≠ "hard_block") ∧
    ((interceptMessage cfg scan msg).block_reason.isSome = true ↔
      (interceptMessage cfg scan msg).action = "hard_block") ∧
    (cfg.sync_threshold ≤ 0.65 →
      ((interceptMessage cfg scan msg).nudge_message.isSome = true ↔
        (interceptMessage cfg scan msg).action = "nudge")) ∧
    resultInvariants breakerOpenResult ∧
    resultInvariants interceptorErrorResult := by
  suffices h : ((interceptMessage cfg scan msg).allowed = true ↔
      (interceptMessage cfg scan msg).action ≠ "hard_block") ∧
    ((interceptMessage cfg scan msg).block_reason.isSome = true ↔
      (interceptMessage cfg scan msg).action = "hard_block") ∧
    (cfg.sync_threshold ≤ 0.65 →
      ((interceptMessage cfg scan msg).nudge_message.isSome = true ↔
        (interceptMessage cfg scan msg).action = "nudge")) by
    exact ⟨h.1, h.2.1, h.2.2, by decide, by decide⟩
  by_cases hc : msg.content = ""
  · rw [interceptMessage_empty cfg scan msg hc]
    exact ⟨by simp, by simp, fun _ => by simp⟩
  · by_cases hlen : (msg.content.length : ℤ) > cfg.max_message_length
    · rw [interceptMessage_too_long cfg scan msg hc hlen]
      exact ⟨by simp, by simp, fun _ => by simp⟩
    · by_cases hs : calculateRiskScore (scan msg.content) ≥ cfg.sync_threshold
      · rw [interceptMessage_block cfg scan msg hc hlen hs]
        exact ⟨by simp, by simp, fun _ => by simp⟩
      · by_cases hm : calculateRiskScore (scan msg.content) ≥ 0.4
        · rw [interceptMessage_nudge cfg scan msg hc hlen hs hm]
          refine ⟨by simp, by simp, fun hsync => ?_⟩
          have hlt : calculateRiskScore (scan msg.content) < 0.65 :=
            lt_of_lt_of_le (not_le.mp hs) hsync
          have hnm := generateNudgeMessage_isSome
            (calculateRiskScore (scan msg.content)) (scan msg.content) hm hlt
          simpa using hnm
        · rw [interceptMessage_allow cfg scan msg hc hlen hs hm]
          exact ⟨by simp, by simp, fun _ => by simp⟩

/-- Witness for C2 (amended): the conditional `nudge_message`
invariant instantiated at the default configuration, its 0.65 bound
discharged. -/
theorem intercept_result_invariants_witness :
    (interceptMessage defaultConfig scanUrlOnly
        (msgFixture "Check out my profile at https://example.com/profile")).nudge_message.isSome
        = true ↔
      (interceptMessage defaultConfig scanUrlOnly
        (msgFixture "Check out my profile at https://example.com/profile")).action
        = "nudge" :=
  (intercept_result_invariants defaultConfig scanUrlOnly
    (msgFixture "Check out my profile at https://example.com/profile")).2.2.1
    (by norm_num [defaultConfig])

/-- Counterexample to C2 as stated: under the valid configuration
`SYNC_THRESHOLD=0.7`, a single-email content scores 0.68, which falls
in the nudge band `[0.4, 0.7)`, yet `generateNudgeMessage`'s
hard-coded `0.65` upper cutoff returns `undefined`: the result has
`action = "nudge"` with `nudge_message` absent. -/
theorem nudge_message_invariant_counterexample :
    loadConfig env70 = Except.ok (jsConfigOf cfg70) ∧
    (interceptMessage cfg70 scanEmailOnly
      (msgFixture "Email me at john.doe@example.com")).action = "nudge" ∧
    (interceptMessage cfg70 scanEmailOnly
      (msgFixture "Email me at john.doe@example.com")).nudge_message = none := by
  have hscan : scanEmailOnly (msgFixture "Email me at john.doe@example.com").content
      = [⟨.email, 1, ["john.doe@example.com"]⟩] := by decide
  have hcalc : calculateRiskScore [⟨.email, 1, ["john.doe@example.com"]⟩]
      = 0.68 := by
    norm_num [calculateRiskScore, PATTERN_WEIGHTS, jsMax, jsMin]
  have hsync : cfg70.sync_threshold = 0.7 := by
    norm_num [cfg70, defaultConfig]
  have hc : (msgFixture "Email me at john.doe@example.com").content ≠ "" := by
    decide
  have hlen : ¬ (((msgFixture "Email me at john.doe@example.com").content.length : ℤ)
      > cfg70.max_message_length) := by decide
  have hs : ¬ (calculateRiskScore (scanEmailOnly
      (msgFixture "Email me at john.doe@example.com").content)
        ≥ cfg70.sync_threshold) := by
    rw [hscan, hcalc, hsync]
    norm_num
  have hm : calculateRiskScore (scanEmailOnly
      (msgFixture "Email me at john.doe@example.com").content) ≥ 0.4 := by
    rw [hscan, hcalc]
    norm_num
  rw [interceptMessage_nudge cfg70 scanEmailOnly
    (msgFixture "Email me at john.doe@example.com") hc hlen hs hm]
  refine ⟨?_, rfl, ?_⟩
  · norm_num [loadConfig, parseConfig, env70, cfg70, defaultConfig, jsConfigOf,
      JSNum.lt, JSNum.gt]
  · rw [hscan, hcalc]
    norm_num [generateNudgeMessage]

/-- C9: `interceptMessage` is a pure function of the message content
(and the configuration and scanner): messages that agree on `content`
produce identical results, whatever their other fields. -/
theorem interceptMessage_content_deterministic (cfg : InterceptorConfig)
    (scan : String → List PatternMatch) (m1 m2 : ChatMessage)
    (h : m1.content = m2.content) :
    interceptMessage cfg scan m1 = interceptMessage cfg scan m2 := by
  unfold interceptMessage
  rw [h]

/-- Witness for C9: same content, different identifiers and GPS. -/
theorem interceptMessage_content_deterministic_witness :
    interceptMessage defaultConfig scanPhoneOnly
        (msgFixture "Call me at (555) 123-4567")
      = interceptMessage defaultConfig scanPhoneOnly
        { message_id := "msg-999", thread_id := "thread-7", user_id := "user-42"
          content := "Call me at (555) 123-4567"
          timestamp := "2030-06-15T08:30:00Z"
          gps_lat := some 37.7749, gps_lon := some (-122.4194) } :=
  interceptMessage_content_deterministic defaultConfig scanPhoneOnly _ _ rfl

/-- C10: an `intercept` request with empty message content is answered
by the dispatcher with the `processing_error`/"Missing message
content" `ErrorResponse`, leaving the breaker untouched (for every
scorer thunk, which is therefore never invoked) — even though
`interceptMessage` itself maps empty content to the allow result. -/
theorem empty_content_dispatcher_error
    (scorer : ChatMessage → Except Unit InterceptResult)
    (cb : CircuitBreaker) (now : ℕ) (req : InterceptorRequest)
    (ht : req.type = "intercept") (hc : req.message.content = "") :
    handleMessage scorer cb now req
      = (.err { request_id := req.request_id, error := "processing_error"
                message := "Missing message content" }, cb) ∧
    ∀ (cfg : InterceptorConfig) (scan : String → List PatternMatch),
      interceptMessage cfg scan req.message
        = { allowed := true, action := "allow", risk_score := 0.0
            labels := [] } := by
  constructor
  · unfold handleMessage
    rw [if_neg (not_not_intro ht), if_pos hc]
  · intro cfg scan
    exact interceptMessage_empty cfg scan req.message hc

/-- Witness for C10 with a concrete empty-content request. -/
theorem empty_content_dispatcher_error_witness :
    handleMessage
        (fun m => Except.ok (interceptMessage defaultConfig scanEmailOnly m))
        (mkCircuitBreaker ⟨5, 30000, 3⟩) 0
        { type := "intercept", message := msgFixture "" }
      = (.err { request_id := none, error := "processing_error"
                message := "Missing message content" },
         mkCircuitBreaker ⟨5, 30000, 3⟩) :=
  (empty_content_dispatcher_error
    (fun m => Except.ok (interceptMessage defaultConfig scanEmailOnly m))
    (mkCircuitBreaker ⟨5, 30000, 3⟩) 0
    { type := "intercept", message := msgFixture "" } rfl rfl).1

theorem execute_closed_fail (cfgv : CircuitBreakerConfig)
    (fc sc lf now : ℕ) :
    (CircuitBreaker.mk cfgv .CLOSED fc sc lf).execute now
        (Except.error () : Except Unit Unit)
      = (ExecOutcome.thrown,
         if fc + 1 ≥ cfgv.threshold
         then CircuitBreaker.mk cfgv .OPEN (fc + 1) sc now
         else CircuitBreaker.mk cfgv .CLOSED (fc + 1) sc now) := by
  unfold CircuitBreaker.execute CircuitBreaker.executeInner
    CircuitBreaker.onFailure
  simp

theorem execute_halfopen_ok (cfgv : CircuitBreakerConfig)
    (fc sc lf now : ℕ) (hsc : sc < cfgv.halfOpenMaxAttempts) :
    (CircuitBreaker.mk cfgv .HALF_OPEN fc sc lf).execute now
        (Except.ok () : Except Unit Unit)
      = (ExecOutcome.value (),
         if sc + 1 ≥ cfgv.halfOpenMaxAttempts
         then CircuitBreaker.mk cfgv .CLOSED 0 0 lf
         else CircuitBreaker.mk cfgv .HALF_OPEN fc (sc + 1) lf) := by
  unfold CircuitBreaker.execute CircuitBreaker.executeInner
    CircuitBreaker.onSuccess
  simp [Nat.not_le.mpr hsc]

theorem execute_halfopen_fail (cfgv : CircuitBreakerConfig)
    (fc sc lf now : ℕ) (hsc : sc < cfgv.halfOpenMaxAttempts) :
    (CircuitBreaker.mk cfgv .HALF_OPEN fc sc lf).execute now
        (Except.error () : Except Unit Unit)
      = (ExecOutcome.thrown, CircuitBreaker.mk cfgv .OPEN (fc + 1) 0 now) := by
  unfold CircuitBreaker.execute CircuitBreaker.executeInner
    CircuitBreaker.onFailure
  simp [Nat.not_le.mpr hsc]

theorem execute_open_wait {T : Type} (cfgv : CircuitBreakerConfig)
    (fc sc lf now : ℕ) (op : Except Unit T)
    (h : now < lf + cfgv.resetTimeout) :
    (CircuitBreaker.mk cfgv .OPEN fc sc lf).execute now op
      = (ExecOutcome.sentinel, CircuitBreaker.mk cfgv .OPEN fc sc lf) := by
  unfold CircuitBreaker.execute
  simp [Nat.not_le.mpr h]

theorem execute_open_elapsed_ok {T : Type} (cfgv : CircuitBreakerConfig)
    (fc sc lf now : ℕ) (t : T)
    (h : lf + cfgv.resetTimeout ≤ now) (hmax : 1 ≤ cfgv.halfOpenMaxAttempts) :
    (CircuitBreaker.mk cfgv .OPEN fc sc lf).execute now (Except.ok t)
      = (ExecOutcome.value t,
         if 1 ≥ cfgv.halfOpenMaxAttempts
         then CircuitBreaker.mk cfgv .CLOSED 0 0 lf
         else CircuitBreaker.mk cfgv .HALF_OPEN fc 1 lf) := by
  unfold CircuitBreaker.execute CircuitBreaker.executeInner
    CircuitBreaker.onSuccess
  simp [h, Nat.not_le.mpr hmax]

theorem execute_open_elapsed_fail (cfgv : CircuitBreakerConfig)
    (fc sc lf now : ℕ)
    (h : lf + cfgv.resetTimeout ≤ now) (hmax : 1 ≤ cfgv.halfOpenMaxAttempts) :
    (CircuitBreaker.mk cfgv .OPEN fc sc lf).execute now
        (Except.error () : Except Unit Unit)
      = (ExecOutcome.thrown, CircuitBreaker.mk cfgv .OPEN (fc + 1) 0 now) := by
  unfold CircuitBreaker.execute CircuitBreaker.executeInner
    CircuitBreaker.onFailure
  simp [h, Nat.not_le.mpr hmax]

/-- After `k ≤ threshold` consecutive failing calls from the initial
state, the breaker is exactly this record (CLOSED with `failureCount
= k` below the threshold, OPEN at the threshold). -/
theorem iterExecFail_spec (cfgv : CircuitBreakerConfig)
    (hth : 1 ≤ cfgv.threshold) (now : ℕ) :
    ∀ k, k ≤ cfgv.threshold →
      iterExecFail now k (mkCircuitBreaker cfgv)
        = CircuitBreaker.mk cfgv
            (if k < cfgv.threshold then .CLOSED else .OPEN) k 0
            (if k = 0 then 0 else now) := by
  intro k
  induction k with
  | zero =>
    intro _
    rw [if_pos (by omega : 0 < cfgv.threshold), if_pos rfl]
    rfl
  | succ k ih =>
    intro hk1
    have hklt : k < cfgv.threshold := by omega
    have ihe := ih (by omega)
    rw [if_pos hklt] at ihe
    show ((iterExecFail now k (mkCircuitBreaker cfgv)).execute now
      (Except.error () : Except Unit Unit)).2 = _
    rw [ihe, execute_closed_fail]
    split_ifs with h1 h2 h3 <;> first | rfl | omega | simp_all

/-- From HALF_OPEN with a zero success counter, `i ≤
halfOpenMaxAttempts` consecutive successful calls leave the breaker in
exactly this record (HALF_OPEN with `successCount = i` below the
limit, CLOSED with cleared counters at the limit). -/
theorem iterExecOk_spec (cfgv : CircuitBreakerConfig)
    (hhalf : 1 ≤ cfgv.halfOpenMaxAttempts) (now fc lf : ℕ) :
    ∀ i, i ≤ cfgv.halfOpenMaxAttempts →
      iterExecOk now i (CircuitBreaker.mk cfgv .HALF_OPEN fc 0 lf)
        = if i < cfgv.halfOpenMaxAttempts
          then CircuitBreaker.mk cfgv .HALF_OPEN fc i lf
          else CircuitBreaker.mk cfgv .CLOSED 0 0 lf := by
  intro i
  induction i with
  | zero =>
    intro _
    rw [if_pos (by omega : 0 < cfgv.halfOpenMaxAttempts)]
    rfl
  | succ i ih =>
    intro hi1
    have hilt : i < cfgv.halfOpenMaxAttempts := by omega
    have ihe := ih (by omega)
    rw [if_pos hilt] at ihe
    show ((iterExecOk now i _).execute now
      (Except.ok () : Except Unit Unit)).2 = _
    rw [ihe, execute_halfopen_ok cfgv fc i lf now hilt]
    split_ifs with h1 h2 <;> first | rfl | omega

/-- Witness for C6 with `MAX_MESSAGE_LENGTH=5` and an 8-character
message. -/
theorem length_gate_hard_blocks_witness :
    interceptMessage cfgMax5 scanSocialOnly (msgFixture "abcdefgh")
      = { allowed := false, action := "hard_block", risk_score := 1.0
          labels := ["message_too_long"]
          block_reason := some ("Message exceeds maximum length of " ++
            toString cfgMax5.max_message_length ++ " characters") } :=
  length_gate_hard_blocks cfgMax5 scanSocialOnly (msgFixture "abcdefgh")
    (by decide) (by decide)

/-- C4: the circuit breaker realizes the specified state machine:
(a) from the initial CLOSED state, `k < threshold` consecutive failing
calls leave it CLOSED with `failureCount = k`, and the `threshold`-th
opens it; (b) while OPEN before `resetTimeout` has elapsed since the
last failure, every call returns the sentinel without invoking the
operation and leaves the breaker unchanged; (c) once `resetTimeout`
has elapsed the next call invokes the operation as a probe, under
HALF_OPEN bookkeeping; (d) `halfOpenMaxAttempts` consecutive
successful calls from HALF_OPEN return it to CLOSED with
`failureCount` and `successCount` cleared to zero; (e) any failure in
HALF_OPEN (while probes are admitted) returns it to OPEN. -/
theorem circuit_breaker_state_machine (cfg : CircuitBreakerConfig)
    (hth : 1 ≤ cfg.threshold) (hhalf : 1 ≤ cfg.halfOpenMaxAttempts)
    (now : ℕ) :
    (∀ k : ℕ,
      (k < cfg.threshold →
        (iterExecFail now k (mkCircuitBreaker cfg)).state = CircuitState.CLOSED ∧
        (iterExecFail now k (mkCircuitBreaker cfg)).failureCount = k) ∧
      (k = cfg.threshold →
        (iterExecFail now k (mkCircuitBreaker cfg)).state = CircuitState.OPEN)) ∧
    (∀ (T : Type) (cb : CircuitBreaker) (op : Except Unit T) (now2 : ℕ),
      cb.state = CircuitState.OPEN →
      now2 < cb.lastFailureTime + cb.config.resetTimeout →
      cb.execute now2 op = (ExecOutcome.sentinel, cb)) ∧
    (∀ (T : Type) (cb : CircuitBreaker) (t : T) (now2 : ℕ),
      cb.state = CircuitState.OPEN → cb.config = cfg →
      cb.lastFailureTime + cb.config.resetTimeout ≤ now2 →
      (cb.execute now2 (Except.ok t)).1 = ExecOutcome.value t ∧
      ((cb.execute now2 (Except.ok t)).2.state = CircuitState.HALF_OPEN ∨
        (cb.execute now2 (Except.ok t)).2.state = CircuitState.CLOSED)) ∧
    (∀ cb : CircuitBreaker, cb.config = cfg →
      cb.state = CircuitState.HALF_OPEN → cb.successCount = 0 →
      (iterExecOk now cfg.halfOpenMaxAttempts cb).state = CircuitState.CLOSED ∧
      (iterExecOk now cfg.halfOpenMaxAttempts cb).failureCount = 0 ∧
      (iterExecOk now cfg.halfOpenMaxAttempts cb).successCount = 0) ∧
    (∀ (cb : CircuitBreaker) (now2 : ℕ), cb.config = cfg →
      cb.state = CircuitState.HALF_OPEN →
      cb.successCount < cfg.halfOpenMaxAttempts →
      (cb.execute now2 (Except.error () : Except Unit Unit)).1
          = ExecOutcome.thrown ∧
      ((cb.execute now2 (Except.error () : Except Unit Unit)).2).state
          = CircuitState.OPEN) := by
  refine ⟨?_, ?_, ?_, ?_, ?_⟩
  · intro k
    constructor
    · intro hk
      rw [iterExecFail_spec cfg hth now k (le_of_lt hk)]
      exact ⟨by simp [if_pos hk], rfl⟩
    · intro hk
      rw [iterExecFail_spec cfg hth now k (le_of_eq hk)]
      simp [hk]
  · intro T cb op now2 hopen hwait
    obtain ⟨cfgv, st, fc, sc, lf⟩ := cb
    dsimp only at hopen hwait
    subst hopen
    exact execute_open_wait cfgv fc sc lf now2 op hwait
  · intro T cb t now2 hopen hconf helapsed
    obtain ⟨cfgv, st, fc, sc, lf⟩ := cb
    dsimp only at hopen hconf helapsed
    subst hopen
    subst hconf
    rw [execute_open_elapsed_ok cfgv fc sc lf now2 t helapsed hhalf]
    refine ⟨rfl, ?_⟩
    split_ifs
    · exact Or.inr rfl
    · exact Or.inl rfl
  · intro cb hconf hst hsc
    obtain ⟨cfgv, st, fc, sc, lf⟩ := cb
    dsimp only at hconf hst hsc
    subst hconf
    subst hst
    subst hsc
    rw [iterExecOk_spec cfgv hhalf now fc lf cfgv.halfOpenMaxAttempts le_rfl,
      if_neg (lt_irrefl _)]
    exact ⟨rfl, rfl, rfl⟩
  · intro cb now2 hconf hst hsc
    obtain ⟨cfgv, st, fc, sc, lf⟩ := cb
    dsimp only at hconf hst hsc
    subst hconf
    subst hst
    rw [execute_halfopen_fail cfgv fc sc lf now2 hsc]
    exact ⟨rfl, rfl⟩

/-- Witness for C4: with threshold 2, two failing calls open the
breaker. -/
theorem circuit_breaker_state_machine_witness :
    (iterExecFail 5 2 (mkCircuitBreaker ⟨2, 1000, 1⟩)).state
      = CircuitState.OPEN :=
  ((circuit_breaker_state_machine ⟨2, 1000, 1⟩ (by decide) (by decide) 5).1
    2).2 rfl

/-- C7 (amended): while the breaker is OPEN and less than
`resetTimeout` has elapsed since the last failure, every valid
intercept request is answered with the synthesized fail-open result
(`allowed = true`, `action = "allow"`, `risk_score = 0`, label
`circuit_breaker_open`) and the breaker is unchanged.  Once the
timeout has elapsed an OPEN breaker lets the call probe the scorer
instead, see the counterexample. -/
theorem breaker_open_fail_open_reply
    (scorer : ChatMessage → Except Unit InterceptResult)
    (cb : CircuitBreaker) (now : ℕ) (req : InterceptorRequest)
    (ht : req.type = "intercept") (hc : ¬ req.message.content = "")
    (hopen : cb.state = CircuitState.OPEN)
    (hwait : now < cb.lastFailureTime + cb.config.resetTimeout) :
    handleMessage scorer cb now req = (.ok breakerOpenResult, cb) ∧
    breakerOpenResult.allowed = true ∧
    breakerOpenResult.action = "allow" ∧
    breakerOpenResult.risk_score = 0.0 ∧
    "circuit_breaker_open" ∈ breakerOpenResult.labels := by
  refine ⟨?_, rfl, rfl, rfl, by simp [breakerOpenResult]⟩
  obtain ⟨cfgv, st, fc, sc, lf⟩ := cb
  dsimp only at hopen hwait
  subst hopen
  unfold handleMessage
  rw [if_neg (not_not_intro ht), if_neg hc,
    execute_open_wait cfgv fc sc lf now (scorer req.message) hwait]

/-- Witness for C7 (amended) with a concrete OPEN breaker inside the
reset window. -/
theorem breaker_open_fail_open_reply_witness :
    handleMessage
        (fun m => Except.ok (interceptMessage defaultConfig scanPhoneOnly m))
        cbOpenFixture 1500
        { type := "intercept", message := msgFixture "Call me at (555) 123-4567" }
      = (.ok breakerOpenResult, cbOpenFixture) :=
  (breaker_open_fail_open_reply
    (fun m => Except.ok (interceptMessage defaultConfig scanPhoneOnly m))
    cbOpenFixture 1500
    { type := "intercept", message := msgFixture "Call me at (555) 123-4567" }
    rfl (by decide) rfl (by decide)).1

/-- Counterexample to C7 as stated: the breaker is OPEN on arrival,
but the reset timeout has elapsed, so the call runs as a probe and the
phone message is hard-blocked — the reply is not the fail-open
`circuit_breaker_open` result. -/
theorem breaker_open_reply_counterexample :
    cbOpenElapsed.state = CircuitState.OPEN ∧
    (handleMessage
        (fun m => Except.ok (interceptMessage defaultConfig scanPhoneOnly m))
        cbOpenElapsed 1000
        { type := "intercept"
          message := msgFixture "Call me at (555) 123-4567" }).1
      = DispatcherReply.ok (interceptMessage defaultConfig scanPhoneOnly
          (msgFixture "Call me at (555) 123-4567")) ∧
    (interceptMessage defaultConfig scanPhoneOnly
        (msgFixture "Call me at (555) 123-4567")).action = "hard_block" ∧
    "circuit_breaker_open" ∉ (interceptMessage defaultConfig scanPhoneOnly
        (msgFixture "Call me at (555) 123-4567")).labels := by
  have hscan : scanPhoneOnly (msgFixture "Call me at (555) 123-4567").content
      = [⟨.phone, 1, ["(555) 123-4567"]⟩] := by decide
  have hsync : defaultConfig.sync_threshold = 0.65 := by
    norm_num [defaultConfig]
  have hs : calculateRiskScore (scanPhoneOnly
      (msgFixture "Call me at (555) 123-4567").content)
        ≥ defaultConfig.sync_threshold := by
    rw [hscan, hsync]
    norm_num [calculateRiskScore, PATTERN_WEIGHTS, jsMax, jsMin]
  have hc : ¬ (msgFixture "Call me at (555) 123-4567").content = "" := by decide
  have hlen : ¬ (((msgFixture "Call me at (555) 123-4567").content.length : ℤ)
      > defaultConfig.max_message_length) := by decide
  have hblock := interceptMessage_block defaultConfig scanPhoneOnly
    (msgFixture "Call me at (555) 123-4567") hc hlen hs
  refine ⟨rfl, rfl, ?_, ?_⟩
  · rw [hblock]
  · rw [hblock]
    show "circuit_breaker_open" ∉ generateLabels (scanPhoneOnly
      (msgFixture "Call me at (555) 123-4567").content)
    rw [hscan]
    decide

theorem execute_value_inv {T : Type} (cb : CircuitBreaker) (now : ℕ)
    (op : Except Unit T) (t : T)
    (h : (cb.execute now op).1 = ExecOutcome.value t) : op = Except.ok t := by
  unfold CircuitBreaker.execute CircuitBreaker.executeInner at h
  cases op with
  | ok a => split_ifs at h <;> simp_all
  | error e => split_ifs at h

/-- C8: the risk score of every result lies in [0, 1]: on every path
of `interceptMessage` (malformed-content gate, length gate, pattern
scoring), and for every reply of the dispatcher whose scorer thunk
only produces in-range scores (in particular the synthesized
breaker-open and interceptor-error results, which carry 0.0). -/
theorem risk_score_bounds (cfg : InterceptorConfig)
    (scan : String → List PatternMatch) (msg : ChatMessage) :
    (0 ≤ (interceptMessage cfg scan msg).risk_score ∧
      (interceptMessage cfg scan msg).risk_score ≤ 1) ∧
    (∀ (scorer : ChatMessage → Except Unit InterceptResult)
      (cb : CircuitBreaker) (now : ℕ) (req : InterceptorRequest)
      (r : InterceptResult),
      (∀ m r0, scorer m = Except.ok r0 →
        0 ≤ r0.risk_score ∧ r0.risk_score ≤ 1) →
      (handleMessage scorer cb now req).1 = DispatcherReply.ok r →
      0 ≤ r.risk_score ∧ r.risk_score ≤ 1) := by
  constructor
  · by_cases hc : msg.content = ""
    · rw [interceptMessage_empty cfg scan msg hc]
      norm_num
    · by_cases hlen : (msg.content.length : ℤ) > cfg.max_message_length
      · rw [interceptMessage_too_long cfg scan msg hc hlen]
        norm_num
      · rw [interceptMessage_risk_score cfg scan msg hc hlen]
        exact ⟨calculateRiskScore_nonneg _, calculateRiskScore_le_one _⟩
  · intro scorer cb now req r hbound h
    unfold handleMessage at h
    split_ifs at h
    rcases hexec : cb.execute now (scorer req.message) with ⟨out, cb2⟩
    rw [hexec] at h
    cases out with
    | value v =>
      have hv : v = r := by simpa using h
      have hop : scorer req.message = Except.ok v :=
        execute_value_inv cb now (scorer req.message) v (by rw [hexec])
      exact hv ▸ hbound req.message v hop
    | sentinel =>
      have hv : breakerOpenResult = r := by simpa using h
      rw [← hv]
      norm_num [breakerOpenResult]
    | thrown =>
      have hv : interceptorErrorResult = r := by simpa using h
      rw [← hv]
      norm_num [interceptorErrorResult]

/-- Witness for C8: the breaker-open reply of a concrete dispatch
carries a score inside [0, 1]. -/
theorem risk_score_bounds_witness :
    0 ≤ breakerOpenResult.risk_score ∧ breakerOpenResult.risk_score ≤ 1 :=
  (risk_score_bounds defaultConfig scanUrlOnly (msgFixture "hi")).2
    (fun m => Except.ok (interceptMessage defaultConfig scanUrlOnly m))
    cbOpenFixture 1500
    { type := "intercept", message := msgFixture "hi" }
    breakerOpenResult
    (fun m r0 hm => by
      injection hm with h2
      exact h2 ▸ (risk_score_bounds defaultConfig scanUrlOnly m).1)
    rfl

/-- With every variable unset, the loader accepts the defaults
0.65 / 6379 / 8000 / 5 / 30000 / 10000 (the JS image of
`defaultConfig`). -/
theorem loadConfig_defaults :
    loadConfig defaultEnv = Except.ok (jsConfigOf defaultConfig) := by
  norm_num [loadConfig, parseConfig, defaultEnv, defaultConfig, jsConfigOf,
    JSNum.lt, JSNum.gt]

/-- C5 (code bug): the validation chain accepts NaN.  When an
environment variable holds a non-numeric string,
`parseFloat`/`parseInt` yield NaN; every range comparison on NaN is
false, so no check fires and `loadConfig` returns a NaN-valued
configuration instead of aborting startup — while a numeric
out-of-range value such as `SYNC_THRESHOLD=2` is rejected with the
descriptive error the spec describes. -/
theorem loadConfig_nan_accepted :
    loadConfig { SYNC_THRESHOLD := some JSNum.nan }
      = Except.ok
        { sync_threshold := JSNum.nan
          redis_host := "localhost"
          redis_port := JSNum.num 6379
          detection_host := "localhost"
          detection_port := JSNum.num 8000
          circuit_breaker_threshold := JSNum.num 5
          circuit_breaker_reset_ms := JSNum.num 30000
          max_message_length := JSNum.num 10000 } ∧
    (∃ m, loadConfig { SYNC_THRESHOLD := some (JSNum.num 2) }
      = Except.error m) := by
  constructor
  · norm_num [loadConfig, parseConfig, JSNum.lt, JSNum.gt]
  · exact ⟨"Invalid sync_threshold: " ++ (JSNum.num 2).render ++
        ". Must be between 0 and 1.",
      by norm_num [loadConfig, parseConfig, JSNum.lt, JSNum.gt]⟩
